import Mathlib

/-!
Verification of the CrossFit routine-generator RAG system.

Shallow embedding of the Python modules `src/rag/agent.py`, `src/rag/generator.py`,
`src/rag/retriever.py` and `src/scripts/ingest.py`.  Pure functions are translated
directly; the calls that leave the process (the LLM completion calls inside
`generar_rutina` / `editar_rutina` and the ChromaDB persistence inside
`guardar_en_chromadb`) are passed to `procesar_mensaje` as explicit outcome
parameters (`Except`/`Bool`), matching the try/except structure of the source.
Python strings are Lean `String`s, JSON dictionaries are structures whose
optional keys are `Option` fields, Python float distances are `ℚ`.
-/

/-! ## String helpers (models of the Python `str` operations used by the code) -/

/-- Model of Python `str.lower` restricted to the characters this system uses:
ASCII letters plus the accented Spanish capitals. -/
def minuscula (c : Char) : Char :=
  if c = 'Á' then 'á' else if c = 'É' then 'é' else if c = 'Í' then 'í'
  else if c = 'Ó' then 'ó' else if c = 'Ú' then 'ú' else if c = 'Ñ' then 'ñ'
  else if c = 'Ü' then 'ü' else c.toLower

/-- Model of Python `str.lower` on whole strings. -/
def a_minusculas (s : String) : String := ⟨s.data.map minuscula⟩

/-- Model of Python `str.upper` restricted to the characters this system uses. -/
def mayuscula (c : Char) : Char :=
  if c = 'á' then 'Á' else if c = 'é' then 'É' else if c = 'í' then 'Í'
  else if c = 'ó' then 'Ó' else if c = 'ú' then 'Ú' else if c = 'ñ' then 'Ñ'
  else if c = 'ü' then 'Ü' else c.toUpper

/-- Model of Python `str.upper` on whole strings. -/
def a_mayusculas (s : String) : String := ⟨s.data.map mayuscula⟩

/-- Auxiliary for substring search: list-prefix test. -/
def es_prefijo : List Char → List Char → Bool
  | [], _ => true
  | _ :: _, [] => false
  | a :: as, b :: bs => a = b && es_prefijo as bs

/-- Auxiliary for substring search over character lists. -/
def contiene_lista (aguja : List Char) : List Char → Bool
  | [] => es_prefijo aguja []
  | c :: resto => es_prefijo aguja (c :: resto) || contiene_lista aguja resto

/-- Model of the Python membership test `aguja in pajar` on strings. -/
def contiene (aguja pajar : String) : Bool := contiene_lista aguja.data pajar.data

/-- Whitespace characters stripped by Python `str.strip`. -/
def es_espacio (c : Char) : Bool :=
  c = ' ' || c = '\t' || c = '\n' || c = '\r' || c = '\x0B' || c = '\x0C'

/-- Model of Python `str.strip` (drop leading and trailing whitespace). -/
def recortar (s : String) : String :=
  ⟨((s.data.dropWhile es_espacio).reverse.dropWhile es_espacio).reverse⟩

/-- Lexicographic (code-point) order on character lists, as Python compares strings. -/
def lex_le : List Char → List Char → Bool
  | [], _ => true
  | _ :: _, [] => false
  | a :: as, b :: bs => if a = b then lex_le as bs else decide (a < b)

/-- Code-point lexicographic order on strings, the order used by Python `sorted`. -/
def cadena_le (a b : String) : Bool := lex_le a.data b.data

/-- Python truthiness of an optional integer (`None` and `0` are falsy). -/
def truthy_nat : Option Nat → Bool
  | some n => n != 0
  | none => false

/-- Python truthiness of an optional string (`None` and the empty string are falsy). -/
def truthy_cadena : Option String → Bool
  | some s => s != ""
  | none => false

/-- Python truthiness of an optional list (`None` and the empty list are falsy). -/
def truthy_lista : Option (List String) → Bool
  | some l => !l.isEmpty
  | none => false

/-! ## Data model: the structured weekly-routine record

Mirrors the JSON structure produced by the generator prompt and consumed by
`ingest.py` (keys read with `dict.get` become `Option` fields; keys indexed
directly are plain fields). -/

/-- An exercise inside a core / WOD / accessories block. -/
structure Ejercicio where
  nombre : String
  reps : Option String
  escala : Option String
deriving DecidableEq

/-- A core or accessories block: round count plus exercise list. -/
structure Bloque where
  rondas : Option Nat
  ejercicios : List Ejercicio
deriving DecidableEq

/-- The primary strength / olympic block of a day. -/
structure BloquePrincipal where
  tipo : Option String
  descripcion : Option String
  movimiento : Option String
  sets : Option Nat
  reps : Option String
  variante_principiante : Option String
deriving DecidableEq

/-- The WOD block of a day. -/
structure Wod where
  formato : String
  duracion : Option Nat
  rondas : Option Nat
  time_cap : Option Nat
  ejercicios : List Ejercicio
deriving DecidableEq

/-- The per-day metadata record. -/
structure MetadataDia where
  grupos_musculares : List String
  movimientos_olimpicos : List String
  intensidad_estimada : Option String
  patron_movimiento_fuerza : Option String
deriving DecidableEq

/-- One day of the weekly routine. -/
structure Dia where
  dia : String
  fecha : Option String
  tipo_bloque_principal : Option String
  core : Option Bloque
  bloque_principal : Option BloquePrincipal
  wod : Option Wod
  accesorios : Option Bloque
  metadata : Option MetadataDia
deriving DecidableEq

/-- The structured weekly-routine record (`semana_id` / `fecha_inicio` / `dias`). -/
structure Semana where
  semana_id : String
  fecha_inicio : String
  dias : List Dia
deriving DecidableEq

/-! ## ingest.py: enriched-text serialization and flat metadata extraction -/

/-- Lines contributed by one day inside `json_a_texto_enriquecido`
(the body of the `for dia in semana["dias"]` loop of `ingest.py`). -/
def partes_dia (dia : Dia) : List String :=
  let etiqueta_tipo :=
    match dia.tipo_bloque_principal with
    | some t => if t = "" then "N/A" else t
    | none => "N/A"
  let cabecera := "\n" ++ a_mayusculas dia.dia ++ " - " ++ etiqueta_tipo
  let parte_core :=
    match dia.core with
    | some core =>
        if core.ejercicios.isEmpty then []
        else
          let rondas_txt := match core.rondas with | some n => toString n | none => "?"
          ["Core (" ++ rondas_txt ++ " rondas): " ++
            String.intercalate ", "
              (core.ejercicios.map (fun e => recortar (e.nombre ++ " " ++ e.reps.getD "")))]
    | none => []
  let parte_bp :=
    match dia.bloque_principal with
    | some bp =>
        let sets_reps :=
          if truthy_nat bp.sets && truthy_cadena bp.reps then
            toString (bp.sets.getD 0) ++ "x" ++ bp.reps.getD ""
          else ""
        let linea := recortar (bp.tipo.getD "N/A" ++ ": " ++ bp.movimiento.getD "N/A" ++ " " ++ sets_reps)
        linea ::
          (if truthy_cadena bp.variante_principiante then
            ["Principiante: " ++ bp.variante_principiante.getD ""]
          else [])
    | none => []
  let parte_wod :=
    match dia.wod with
    | some wod =>
        let detalle :=
          if truthy_nat wod.duracion then toString (wod.duracion.getD 0) ++ "'"
          else if truthy_nat wod.rondas then toString (wod.rondas.getD 0) ++ " rounds"
          else if truthy_nat wod.time_cap then "TC " ++ toString (wod.time_cap.getD 0) ++ "'"
          else ""
        let encabezado := recortar ("WOD " ++ wod.formato ++ " " ++ detalle ++ ":")
        let lineas := wod.ejercicios.map (fun ej =>
          let linea := recortar ("  - " ++ ej.nombre ++ " " ++ ej.reps.getD "")
          if truthy_cadena ej.escala then linea ++ " (escala: " ++ ej.escala.getD "" ++ ")"
          else linea)
        encabezado :: lineas
    | none => []
  let parte_acc :=
    match dia.accesorios with
    | some acc =>
        if acc.ejercicios.isEmpty then []
        else
          let rondas_txt := match acc.rondas with | some n => toString n | none => "?"
          ["Accesorios (" ++ rondas_txt ++ " rondas): " ++
            String.intercalate ", "
              (acc.ejercicios.map (fun e => recortar (e.nombre ++ " " ++ e.reps.getD "")))]
    | none => []
  let parte_meta :=
    match dia.metadata with
    | some meta =>
        ["Músculos: " ++ String.intercalate ", " meta.grupos_musculares]
        ++ (if meta.movimientos_olimpicos.isEmpty then []
            else ["Olímpicos: " ++ String.intercalate ", " meta.movimientos_olimpicos])
        ++ ["Intensidad: " ++ meta.intensidad_estimada.getD "N/A"]
        ++ (if truthy_cadena meta.patron_movimiento_fuerza then
              ["Patrón: " ++ meta.patron_movimiento_fuerza.getD ""]
            else [])
    | none => []
  cabecera :: (parte_core ++ parte_bp ++ parte_wod ++ parte_acc ++ parte_meta)

/-- Model of `json_a_texto_enriquecido` from `ingest.py`: the enriched-text
serialization of a weekly record that gets embedded into the vector store. -/
def json_a_texto_enriquecido (semana : Semana) : String :=
  String.intercalate "\n"
    (("Semana: " ++ semana.semana_id ++ " | Inicio: " ++ semana.fecha_inicio)
      :: (semana.dias.map partes_dia).flatten)

/-- Model of Python `sorted(set(valores))` for strings: deduplicate, then sort
in code-point lexicographic order. -/
def ordenar_unicos (valores : List String) : List String :=
  List.insertionSort (fun a b => cadena_le a b = true) valores.dedup

/-- The flat metadata record stored next to each document in ChromaDB. -/
structure MetaChroma where
  semana_id : String
  fecha_inicio : String
  movimientos_olimpicos : String
  patrones_fuerza : String
  grupos_musculares : String
  total_dias : Nat
deriving DecidableEq

/-- The `dia["metadata"]` accesses of `extraer_metadata_para_chroma`, in day
order; `none` models the `KeyError` raised when a day has no metadata key. -/
def metadatos_de_dias : List Dia → Option (List MetadataDia)
  | [] => some []
  | dia :: resto =>
      match dia.metadata, metadatos_de_dias resto with
      | some m, some ms => some (m :: ms)
      | _, _ => none

/-- All olympic movements listed by the days of a week, in day order
(the union that `extraer_metadata_para_chroma` accumulates in its set). -/
def olimpicos_listados (semana : Semana) : List String :=
  (semana.dias.map (fun d =>
    match d.metadata with
    | some m => m.movimientos_olimpicos
    | none => [])).flatten

/-- Model of `extraer_metadata_para_chroma` from `ingest.py`: per-day sets are
unioned across the week, deduplicated, sorted and comma-space joined into the
flat metadata record; `none` models the `KeyError` on a day without metadata. -/
def extraer_metadata_para_chroma (semana : Semana) : Option MetaChroma :=
  match metadatos_de_dias semana.dias with
  | none => none
  | some metas =>
      let todos_olimpicos := (metas.map (fun m => m.movimientos_olimpicos)).flatten
      let todos_grupos := (metas.map (fun m => m.grupos_musculares)).flatten
      let todos_patrones := metas.filterMap (fun m =>
        match m.patron_movimiento_fuerza with
        | some p => if p = "" then none else some p
        | none => none)
      some {
        semana_id := semana.semana_id,
        fecha_inicio := semana.fecha_inicio,
        movimientos_olimpicos := String.intercalate ", " (ordenar_unicos todos_olimpicos),
        patrones_fuerza := String.intercalate ", " (ordenar_unicos todos_patrones),
        grupos_musculares := String.intercalate ", " (ordenar_unicos todos_grupos),
        total_dias := semana.dias.length }

/-! ## retriever.py: vector-store gateway, query building, retrieval -/

/-- One stored document of the ChromaDB collection, together with the cosine
distance the store would report for the query under consideration.  The
vector-similarity ranking itself is modelled as data: the `entradas` list is
in ascending-distance order, so a store query returns its first `n` entries. -/
structure Entrada where
  documento : String
  metadata : MetaChroma
  distancia : ℚ
deriving DecidableEq

/-- The persistent ChromaDB collection. -/
structure Coleccion where
  entradas : List Entrada
deriving DecidableEq

/-- Model of `coleccion.count()`. -/
def Coleccion.count (coleccion : Coleccion) : Nat := coleccion.entradas.length

/-- Error raised by the retriever; `coleccion_vacia` models the `ValueError`
raised by `obtener_coleccion` on an empty collection. -/
inductive ErrorRetriever where
  | coleccion_vacia
deriving DecidableEq

/-- Model of `obtener_coleccion` from `retriever.py`: connects to the
collection and raises when it holds zero documents. -/
def obtener_coleccion (cliente : Coleccion) : Except ErrorRetriever Coleccion :=
  if cliente.count = 0 then .error .coleccion_vacia else .ok cliente

/-- Model of `construir_query` from `retriever.py`. -/
def construir_query (objetivo : Option String)
    (evitar_movimientos incluir_movimientos : Option (List String))
    (intensidad : Option String) : String :=
  let partes := ["rutina de crossfit semanal"]
  let partes := partes ++
    (if truthy_cadena objetivo then ["enfocada en " ++ objetivo.getD ""] else [])
  let partes := partes ++
    (if truthy_lista incluir_movimientos then
      ["con " ++ String.intercalate ", " (incluir_movimientos.getD [])] else [])
  let partes := partes ++
    (if truthy_lista evitar_movimientos then
      ["sin repetir " ++ String.intercalate ", " (evitar_movimientos.getD [])] else [])
  let partes := partes ++
    (if truthy_cadena intensidad then ["de intensidad " ++ intensidad.getD ""] else [])
  String.intercalate " " partes

/-- A retrieved candidate as assembled by `recuperar_rutinas_similares`. -/
structure RutinaRecuperada where
  semana_id : String
  similitud : ℚ
  documento : String
  metadata : MetaChroma
deriving DecidableEq

/-- Model of Python `round(x, 3)` on the rational model of floats. -/
def redondear3 (x : ℚ) : ℚ := (round (x * 1000) : ℤ) / 1000

/-- Model of `recuperar_rutinas_similares` from `retriever.py`: `n_resultados`
is clamped to the collection size, the optional metadata filter restricts the
candidates before the search, and the first `n_resultados` entries of the
ranking come back with distance converted to similarity. -/
def recuperar_rutinas_similares (coleccion : Coleccion) (query : String)
    (n_resultados : Nat) (filtros : Option (MetaChroma → Bool)) : List RutinaRecuperada :=
  let n_recortado := min n_resultados coleccion.count
  let candidatas : List Entrada :=
    match filtros with
    | some f => coleccion.entradas.filter (fun en => f en.metadata)
    | none => coleccion.entradas
  (candidatas.take n_recortado).map (fun en =>
    { semana_id := en.metadata.semana_id,
      similitud := redondear3 (1 - en.distancia),
      documento := en.documento,
      metadata := en.metadata })

/-- Plain rendering of the rational similarity, used where the Python code
interpolates the float into the context block. -/
def rat_texto (x : ℚ) : String := toString x.num ++ "/" ++ toString x.den

/-- Model of `formatear_contexto_para_llm` from `retriever.py`. -/
def formatear_contexto_para_llm (rutinas : List RutinaRecuperada) : String :=
  if rutinas.isEmpty then "No se encontraron rutinas de referencia en la base de datos."
  else
    let encabezado := [
      "RUTINAS DE REFERENCIA",
      String.mk (List.replicate 50 '='),
      "Se recuperaron " ++ toString rutinas.length ++ " rutinas similares para usar como base.",
      ""]
    let bloques := (List.enumFrom 1 rutinas).map (fun par =>
      ["[Rutina " ++ toString par.1 ++ " - " ++ par.2.semana_id ++
          " (similitud: " ++ rat_texto par.2.similitud ++ ")]",
       "Olímpicos usados: " ++ par.2.metadata.movimientos_olimpicos,
       "Patrones de fuerza: " ++ par.2.metadata.patrones_fuerza,
       "Grupos musculares: " ++ par.2.metadata.grupos_musculares,
       "",
       par.2.documento,
       "",
       String.mk (List.replicate 50 '-'),
       ""])
    String.intercalate "\n" (encabezado ++ bloques.flatten)

/-- Model of `recuperar_contexto` from `retriever.py`: connect (failing loudly
on an empty collection), build the query, retrieve, format. -/
def recuperar_contexto (cliente : Coleccion) (objetivo : Option String)
    (evitar_movimientos incluir_movimientos : Option (List String))
    (intensidad : Option String) (n_resultados : Nat) :
    Except ErrorRetriever (String × List RutinaRecuperada) :=
  match obtener_coleccion cliente with
  | .error e => .error e
  | .ok coleccion =>
      let query := construir_query objetivo evitar_movimientos incluir_movimientos intensidad
      let rutinas := recuperar_rutinas_similares coleccion query n_resultados none
      .ok (formatear_contexto_para_llm rutinas, rutinas)

/-! ## generator.py: escape repair and intent detection -/

/-- Hexadecimal digit test, as in the character class `[0-9a-fA-F]`. -/
def es_hex (c : Char) : Bool :=
  c.isDigit || ('a' ≤ c && c ≤ 'f') || ('A' ≤ c && c ≤ 'F')

/-- Membership in the character class `["\\/bfnrt]` of the repair regex. -/
def es_escape_simple (c : Char) : Bool :=
  c = '"' || c = '\\' || c = '/' || c = 'b' || c = 'f' || c = 'n' || c = 'r' || c = 't'

/-- The lookahead of the repair regex in `parsear_respuesta_llm`: does the text
after a backslash start with a recognized JSON escape (`["\\/bfnrt]` or
`u` plus four hex digits)? -/
def escape_reconocido : List Char → Bool
  | 'u' :: a :: b :: c :: d :: _ => es_hex a && es_hex b && es_hex c && es_hex d
  | c :: _ => es_escape_simple c
  | [] => false

/-- Model of the escape-repair substitution in `parsear_respuesta_llm`
(`re.sub` with a single-backslash pattern guarded by a negative lookahead):
scanning left to right, every backslash not followed by a recognized JSON
escape is doubled; all other characters pass through. -/
def limpiar_escapes : List Char → List Char
  | [] => []
  | '\\' :: resto =>
      if escape_reconocido resto then '\\' :: limpiar_escapes resto
      else '\\' :: '\\' :: limpiar_escapes resto
  | c :: resto => c :: limpiar_escapes resto

/-- JSON whitespace skipping for the `json.loads` acceptance model. -/
def saltar_espacios (s : List Char) : List Char :=
  s.dropWhile (fun c => c = ' ' || c = '\t' || c = '\n' || c = '\r')

/-- Scan the remainder of a JSON string literal (the opening quote already
consumed), validating every escape sequence; `none` models a decode error. -/
def resto_cadena_json : List Char → Option (List Char)
  | [] => none
  | '"' :: resto => some resto
  | '\\' :: 'u' :: a :: b :: c :: d :: resto =>
      if es_hex a && es_hex b && es_hex c && es_hex d then resto_cadena_json resto else none
  | '\\' :: e :: resto => if es_escape_simple e then resto_cadena_json resto else none
  | _ :: resto => resto_cadena_json resto

/-- Consume one or more decimal digits. -/
def digitos_json : List Char → Option (List Char)
  | c :: resto => if c.isDigit then some (resto.dropWhile Char.isDigit) else none
  | [] => none

/-- Optional fraction part of a JSON number. -/
def fraccion_json : List Char → Option (List Char)
  | '.' :: resto => digitos_json resto
  | s => some s

/-- Optional exponent part of a JSON number. -/
def exponente_json : List Char → Option (List Char)
  | 'e' :: '+' :: resto => digitos_json resto
  | 'e' :: '-' :: resto => digitos_json resto
  | 'e' :: resto => digitos_json resto
  | 'E' :: '+' :: resto => digitos_json resto
  | 'E' :: '-' :: resto => digitos_json resto
  | 'E' :: resto => digitos_json resto
  | s => some s

/-- Grammar mode of the JSON recognizer. -/
inductive ModoJson where
  | valor
  | miembros
  | elementos

/-- Fuel-bounded recognizer for JSON values / object members / array elements,
modelling `json.loads` acceptance; returns the unconsumed remainder. -/
def motor_json : Nat → ModoJson → List Char → Option (List Char)
  | 0, _, _ => none
  | n + 1, .valor, s =>
      match saltar_espacios s with
      | '{' :: resto =>
          (match saltar_espacios resto with
           | '}' :: resto2 => some resto2
           | resto2 => motor_json n .miembros resto2)
      | '[' :: resto =>
          (match saltar_espacios resto with
           | ']' :: resto2 => some resto2
           | resto2 => motor_json n .elementos resto2)
      | '"' :: resto => resto_cadena_json resto
      | 't' :: 'r' :: 'u' :: 'e' :: resto => some resto
      | 'f' :: 'a' :: 'l' :: 's' :: 'e' :: resto => some resto
      | 'n' :: 'u' :: 'l' :: 'l' :: resto => some resto
      | '-' :: resto => do
          let r1 ← digitos_json resto
          let r2 ← fraccion_json r1
          exponente_json r2
      | s2 => do
          let r1 ← digitos_json s2
          let r2 ← fraccion_json r1
          exponente_json r2
  | n + 1, .miembros, s =>
      match saltar_espacios s with
      | '"' :: resto =>
          (match resto_cadena_json resto with
           | none => none
           | some r1 =>
              match saltar_espacios r1 with
              | ':' :: r2 =>
                  (match motor_json n .valor r2 with
                   | none => none
                   | some r3 =>
                      match saltar_espacios r3 with
                      | ',' :: r4 => motor_json n .miembros r4
                      | '}' :: r4 => some r4
                      | _ => none)
              | _ => none)
      | _ => none
  | n + 1, .elementos, s =>
      match motor_json n .valor s with
      | none => none
      | some r1 =>
          match saltar_espacios r1 with
          | ',' :: r2 => motor_json n .elementos r2
          | ']' :: r2 => some r2
          | _ => none

/-- Acceptance model of `json.loads`: the text is one JSON value followed by
nothing but whitespace. -/
def json_valido (s : List Char) : Bool :=
  match motor_json (2 * s.length + 2) .valor s with
  | some resto => (saltar_espacios resto).isEmpty
  | none => false

/-- The approval keyword list of `detectar_intencion`. -/
def palabras_aprobar : List String :=
  ["aprobar", "guardar", "perfecto", "listo", "ok", "está bien",
   "me gusta", "confirmá", "confirmar", "publicar", "usar esta"]

/-- The edit keyword list of `detectar_intencion`. -/
def palabras_editar : List String :=
  ["cambiá", "cambiar", "modificá", "modificar", "reemplazá", "reemplazar",
   "quitá", "quitar", "agregá", "agregar", "ajustá", "ajustar",
   "bajá", "subí", "menos", "más", "en vez de", "en lugar de"]

/-- Model of `detectar_intencion` from `generator.py`. -/
def detectar_intencion (mensaje : String) (tiene_rutina : Bool) : String :=
  let mensaje_lower := a_minusculas mensaje
  if palabras_aprobar.any (fun palabra => contiene palabra mensaje_lower) then "aprobar"
  else if tiene_rutina && palabras_editar.any (fun palabra => contiene palabra mensaje_lower) then
    "editar"
  else if !tiene_rutina then "generar"
  else if tiene_rutina then "editar"
  else "otro"

/-! ## agent.py: session state and the orchestrator -/

/-- A chat message in OpenAI/Groq format. -/
structure Mensaje where
  role : String
  content : String
deriving DecidableEq

/-- The session state kept by the agent (`crear_estado_inicial`). -/
structure Estado where
  historial : List Mensaje
  rutina_actual : Option Semana
  aprobada : Bool
  fecha_inicio : String
  n_ediciones : Nat
deriving DecidableEq

/-- Model of `crear_estado_inicial` from `agent.py`.  The default start date
`obtener_proximo_lunes()` reads the real clock, so the computed next-Monday
string is passed in as a parameter. -/
def crear_estado_inicial (proximo_lunes : String) : Estado :=
  { historial := [],
    rutina_actual := none,
    aprobada := false,
    fecha_inicio := proximo_lunes,
    n_ediciones := 0 }

/-- Model of `procesar_mensaje` from `agent.py`.  The outcomes of the three
downstream calls are explicit parameters: `resultado_generar` and
`resultado_editar` stand for `generar_rutina` / `editar_rutina` (`.ok` is the
returned (message, routine) pair, `.error` carries `str(e)` of the raised
exception), and `resultado_guardar` is the boolean returned by
`guardar_en_chromadb`.  Returns the (reply, updated state) pair. -/
def procesar_mensaje (mensaje : String) (estado : Estado)
    (resultado_generar resultado_editar : Except String (String × Semana))
    (resultado_guardar : Bool) : String × Estado :=
  let tiene_rutina := estado.rutina_actual.isSome
  let intencion := detectar_intencion mensaje tiene_rutina
  if intencion = "generar" then
    match resultado_generar with
    | .ok (respuesta_llm, rutina) =>
        let estado' := { estado with
          rutina_actual := some rutina,
          aprobada := false,
          n_ediciones := 0,
          historial := estado.historial ++
            [⟨"user", mensaje⟩, ⟨"assistant", respuesta_llm⟩] }
        (respuesta_llm ++
          "\n\n📋 La rutina está lista. Podés pedirme cambios o escribir **'aprobar'** cuando estés conforme para guardarla.",
         estado')
    | .error e => ("❌ Hubo un error al generar la rutina: " ++ e, estado)
  else if intencion = "editar" then
    match estado.rutina_actual with
    | none =>
        ("Todavía no generé ninguna rutina. Contame qué tipo de semana querés.", estado)
    | some _ =>
        match resultado_editar with
        | .ok (respuesta_llm, rutina_modificada) =>
            let estado' := { estado with
              rutina_actual := some rutina_modificada,
              n_ediciones := estado.n_ediciones + 1,
              historial := estado.historial ++
                [⟨"user", mensaje⟩, ⟨"assistant", respuesta_llm⟩] }
            (respuesta_llm ++ "\n\n✏️ Edición #" ++ toString estado'.n_ediciones ++
              " aplicada. Podés seguir pidiendo cambios o escribir **'aprobar'** para guardar.",
             estado')
        | .error e => ("❌ Hubo un error al editar la rutina: " ++ e, estado)
  else if intencion = "aprobar" then
    match estado.rutina_actual with
    | none =>
        ("No hay ninguna rutina para aprobar. Contame qué tipo de semana querés.", estado)
    | some rutina =>
        if estado.aprobada then ("Esta rutina ya fue guardada anteriormente.", estado)
        else if resultado_guardar then
          let estado' := { estado with
            aprobada := true,
            historial := estado.historial ++
              [⟨"user", mensaje⟩,
               ⟨"assistant", "Rutina " ++ rutina.semana_id ++ " guardada como ejemplo futuro."⟩] }
          ("✅ **Rutina guardada correctamente** en la base de conocimiento.\n\nA partir de ahora esta semana va a servir como referencia para generar futuras rutinas. Si querés generar otra semana, contame qué necesitás.",
           estado')
        else ("❌ Hubo un error al guardar la rutina. Intentá de nuevo.", estado)
  else
    if !tiene_rutina then
      ("¡Hola! Soy tu asistente de programación CrossFit. Contame qué tipo de semana querés generar. Por ejemplo:\n\n- *'Quiero una semana con énfasis en snatch y WODs cortos'*\n- *'Generá una semana de intensidad media con trabajo de tren superior'*\n- *'Necesito una semana variada para atletas intermedios'*",
       estado)
    else
      ("No entendí bien tu pedido. Podés:\n- Pedirme un cambio específico en la rutina\n- Escribir **'aprobar'** para guardar la rutina actual\n- Pedirme una rutina completamente nueva",
       estado)

/-- The session-state invariant stated by the spec: an approved session and a
session with edits both have a current routine. -/
def invariante_sesion (estado : Estado) : Prop :=
  (estado.aprobada = true → estado.rutina_actual.isSome = true) ∧
  (0 < estado.n_ediciones → estado.rutina_actual.isSome = true)

/-! ## Concrete records used by the theorems -/

/-- A weekly record with empty day list, identifier A. -/
def rutina_a : Semana :=
  { semana_id := "semana_2025_W01", fecha_inicio := "2025-01-06", dias := [] }

/-- A weekly record with empty day list, identifier B (differs from `rutina_a`). -/
def rutina_b : Semana :=
  { semana_id := "semana_2025_W02", fecha_inicio := "2025-01-06", dias := [] }

/-- A drafting-phase session state holding `rutina_a`. -/
def estado_c2 : Estado :=
  { historial := [],
    rutina_actual := some rutina_a,
    aprobada := false,
    fecha_inicio := "2025-01-06",
    n_ediciones := 0 }

/-- Day metadata with no estimated intensity and no muscle groups. -/
def meta_c3 : MetadataDia :=
  { grupos_musculares := [],
    movimientos_olimpicos := [],
    intensidad_estimada := none,
    patron_movimiento_fuerza := none }

/-- A day with no primary-block type tag and metadata missing the optional
fields, exercising the absent-field branches of the serializer. -/
def dia_c3 : Dia :=
  { dia := "Lunes",
    fecha := none,
    tipo_bloque_principal := none,
    core := none,
    bloque_principal := none,
    wod := none,
    accesorios := none,
    metadata := some meta_c3 }

/-- A one-day week built from `dia_c3`. -/
def semana_c3 : Semana :=
  { semana_id := "semana_x", fecha_inicio := "2025-01-06", dias := [dia_c3] }

/-- A fully populated day whose optional sub-fields (beginner variant, scale,
olympic list, strength pattern, accessories) are absent. -/
def dia_c3b : Dia :=
  { dia := "Martes",
    fecha := none,
    tipo_bloque_principal := some "FUERZA",
    core := some { rondas := some 3,
                   ejercicios := [{ nombre := "Plancha", reps := some "30s", escala := none }] },
    bloque_principal := some { tipo := some "FUERZA", descripcion := none,
                               movimiento := some "Back Squat", sets := some 5,
                               reps := some "5", variante_principiante := none },
    wod := some { formato := "AMRAP", duracion := some 12, rondas := none, time_cap := none,
                  ejercicios := [{ nombre := "Burpees", reps := some "10", escala := none }] },
    accesorios := none,
    metadata := some { grupos_musculares := ["piernas"],
                       movimientos_olimpicos := [],
                       intensidad_estimada := some "alta",
                       patron_movimiento_fuerza := none } }

/-- A one-day week built from `dia_c3b`. -/
def semana_c3b : Semana :=
  { semana_id := "semana_y", fecha_inicio := "2025-01-06", dias := [dia_c3b] }

/-- A day holding only the given olympic movements in its metadata. -/
def dia_olimpico (nombre : String) (movimientos : List String) : Dia :=
  { dia := nombre,
    fecha := none,
    tipo_bloque_principal := none,
    core := none,
    bloque_principal := none,
    wod := none,
    accesorios := none,
    metadata := some { grupos_musculares := [],
                       movimientos_olimpicos := movimientos,
                       intensidad_estimada := none,
                       patron_movimiento_fuerza := none } }

/-- Week with snatch on Monday and clean on Tuesday. -/
def semana_c8_a : Semana :=
  { semana_id := "semana_2025_W06", fecha_inicio := "2025-02-03",
    dias := [dia_olimpico "Lunes" ["snatch"], dia_olimpico "Martes" ["clean"]] }

/-- The same week with the two movements listed by the opposite days. -/
def semana_c8_b : Semana :=
  { semana_id := "semana_2025_W07", fecha_inicio := "2025-02-03",
    dias := [dia_olimpico "Lunes" ["clean"], dia_olimpico "Martes" ["snatch"]] }

/-- Flat metadata extracted from `semana_c8_a`. -/
def meta_c8_a : MetaChroma :=
  { semana_id := "semana_2025_W06", fecha_inicio := "2025-02-03",
    movimientos_olimpicos := "clean, snatch", patrones_fuerza := "",
    grupos_musculares := "", total_dias := 2 }

/-- Flat metadata extracted from `semana_c8_b`. -/
def meta_c8_b : MetaChroma :=
  { semana_id := "semana_2025_W07", fecha_inicio := "2025-02-03",
    movimientos_olimpicos := "clean, snatch", patrones_fuerza := "",
    grupos_musculares := "", total_dias := 2 }

/-- A collection holding no documents. -/
def coleccion_sin_documentos : Coleccion := { entradas := [] }

/-- A flat metadata record for the two-document collection. -/
def meta_c6 : MetaChroma :=
  { semana_id := "semana_2025_W01", fecha_inicio := "2025-01-06",
    movimientos_olimpicos := "", patrones_fuerza := "",
    grupos_musculares := "", total_dias := 5 }

/-- A collection holding exactly two documents. -/
def coleccion_dos : Coleccion :=
  { entradas :=
      [{ documento := "doc uno", metadata := meta_c6, distancia := 1/10 },
       { documento := "doc dos", metadata := { meta_c6 with semana_id := "semana_2025_W02" },
         distancia := 2/10 }] }

/-- Raw model JSON whose string value holds the invalid escape backslash-q. -/
def json_c9 : List Char :=
  ['{', '"', 'm', '"', ':', ' ', '"', 'a', '\\', 'q', 'b', '"', '}']

/-- The repaired form of `json_c9`: the invalid backslash has been doubled. -/
def json_c9_reparado : List Char :=
  ['{', '"', 'm', '"', ':', ' ', '"', 'a', '\\', '\\', 'q', 'b', '"', '}']

/-! ## Helper lemmas about the code-point order and the metadata collection -/

theorem lex_le_total : ∀ as bs : List Char, lex_le as bs = true ∨ lex_le bs as = true := by
  intro as
  induction as with
  | nil => intro bs; left; rfl
  | cons a as ih =>
      intro bs
      cases bs with
      | nil => right; rfl
      | cons b bs =>
          by_cases hab : a = b
          · subst hab
            rcases ih bs with h | h
            · left; simpa [lex_le] using h
            · right; simpa [lex_le] using h
          · rcases lt_or_gt_of_ne hab with h | h
            · left; simp [lex_le, hab, h]
            · right; simp [lex_le, Ne.symm hab, h]

theorem lex_le_trans : ∀ as bs cs : List Char,
    lex_le as bs = true → lex_le bs cs = true → lex_le as cs = true := by
  intro as
  induction as with
  | nil => intro bs cs _ _; rfl
  | cons a as ih =>
      intro bs cs h1 h2
      cases bs with
      | nil => simp [lex_le] at h1
      | cons b bs =>
          cases cs with
          | nil => simp [lex_le] at h2
          | cons c cs =>
              by_cases hab : a = b <;> by_cases hbc : b = c
              · subst hab; subst hbc
                simp only [lex_le, if_pos rfl] at h1 h2 ⊢
                exact ih bs cs h1 h2
              · subst hab
                simp only [lex_le, if_pos rfl] at h1
                simp only [lex_le, if_neg hbc, decide_eq_true_eq] at h2
                have hac : a ≠ c := hbc
                simp [lex_le, hac, h2]
              · subst hbc
                simp only [lex_le, if_neg hab, decide_eq_true_eq] at h1
                have hac : a ≠ b := hab
                simp [lex_le, hac, h1]
              · simp only [lex_le, if_neg hab, decide_eq_true_eq] at h1
                simp only [lex_le, if_neg hbc, decide_eq_true_eq] at h2
                have hac : a < c := lt_trans h1 h2
                simp [lex_le, ne_of_lt hac, hac]

theorem lex_le_antisymm : ∀ as bs : List Char,
    lex_le as bs = true → lex_le bs as = true → as = bs := by
  intro as
  induction as with
  | nil =>
      intro bs _ h2
      cases bs with
      | nil => rfl
      | cons b bs => simp [lex_le] at h2
  | cons a as ih =>
      intro bs h1 h2
      cases bs with
      | nil => simp [lex_le] at h1
      | cons b bs =>
          by_cases hab : a = b
          · subst hab
            simp only [lex_le, if_pos rfl] at h1 h2
            rw [ih bs h1 h2]
          · simp only [lex_le, if_neg hab, decide_eq_true_eq] at h1
            simp only [lex_le, if_neg (Ne.symm hab), decide_eq_true_eq] at h2
            exact absurd h2 (lt_asymm h1)

instance : IsTotal String (fun a b => cadena_le a b = true) :=
  ⟨fun a b => lex_le_total a.data b.data⟩

instance : IsTrans String (fun a b => cadena_le a b = true) :=
  ⟨fun a b c h1 h2 => lex_le_trans a.data b.data c.data h1 h2⟩

instance : IsAntisymm String (fun a b => cadena_le a b = true) :=
  ⟨fun a b h1 h2 => by
    have h := lex_le_antisymm a.data b.data h1 h2
    cases a with
    | mk da =>
        cases b with
        | mk db => exact congrArg String.mk h⟩

theorem ordenar_unicos_perm {l₁ l₂ : List String} (h : l₁.Perm l₂) :
    ordenar_unicos l₁ = ordenar_unicos l₂ := by
  apply List.eq_of_perm_of_sorted (r := fun a b => cadena_le a b = true)
  · exact (List.perm_insertionSort _ _).trans (h.dedup.trans (List.perm_insertionSort _ _).symm)
  · exact List.sorted_insertionSort _ _
  · exact List.sorted_insertionSort _ _

theorem metadatos_de_dias_olimpicos (dias : List Dia) :
    ∀ metas : List MetadataDia, metadatos_de_dias dias = some metas →
      metas.map (fun m => m.movimientos_olimpicos)
        = dias.map (fun d =>
            match d.metadata with
            | some m => m.movimientos_olimpicos
            | none => []) := by
  induction dias with
  | nil =>
      intro metas h
      simp only [metadatos_de_dias, Option.some.injEq] at h
      subst h
      rfl
  | cons d ds ih =>
      intro metas h
      cases hd : d.metadata with
      | none => rw [metadatos_de_dias, hd] at h; exact absurd h (by simp)
      | some m =>
          rw [metadatos_de_dias, hd] at h
          cases hds : metadatos_de_dias ds with
          | none => rw [hds] at h; exact absurd h (by simp)
          | some ms =>
              rw [hds] at h
              simp only [Option.some.injEq] at h
              subst h
              simp only [List.map_cons, hd]
              rw [ih ms hds]

/-! ## Claim theorems -/

/-- Claim C5: any utterance whose lowercased text contains at least one
approval keyword is classified `aprobar` by `detectar_intencion`, regardless
of routine presence, even when modification keywords are also present. -/
theorem detectar_intencion_prioriza_aprobar
    (mensaje : String) (tiene_rutina : Bool)
    (h : ∃ palabra ∈ palabras_aprobar, contiene palabra (a_minusculas mensaje) = true) :
    detectar_intencion mensaje tiene_rutina = "aprobar" := by
  obtain ⟨p, hp, hc⟩ := h
  have hany : palabras_aprobar.any (fun palabra => contiene palabra (a_minusculas mensaje)) = true :=
    List.any_eq_true.mpr ⟨p, hp, hc⟩
  unfold detectar_intencion
  simp only [hany, if_pos]

/-- Witness for C5: the mixed utterance containing both the approval keyword
`perfecto` and the edit keyword `cambiá` classifies as `aprobar`. -/
theorem detectar_intencion_prioriza_aprobar_testigo :
    detectar_intencion "perfecto, cambiá el WOD del miércoles" true = "aprobar" :=
  detectar_intencion_prioriza_aprobar _ _ ⟨"perfecto", by decide, by decide⟩

/-- Claim C10: `detectar_intencion` always returns one of `aprobar`, `editar`
or `generar`, and never `otro`; the unrecognized-message branch of
`procesar_mensaje` is therefore unreachable when the intent comes from the
classifier. -/
theorem detectar_intencion_nunca_otro (mensaje : String) (tiene_rutina : Bool) :
    (detectar_intencion mensaje tiene_rutina = "aprobar" ∨
     detectar_intencion mensaje tiene_rutina = "editar" ∨
     detectar_intencion mensaje tiene_rutina = "generar") ∧
    detectar_intencion mensaje tiene_rutina ≠ "otro" := by
  have h : detectar_intencion mensaje tiene_rutina = "aprobar" ∨
      detectar_intencion mensaje tiene_rutina = "editar" ∨
      detectar_intencion mensaje tiene_rutina = "generar" := by
    unfold detectar_intencion
    by_cases h1 : (palabras_aprobar.any fun palabra =>
        contiene palabra (a_minusculas mensaje)) = true
    · simp [h1]
    · by_cases h2 : (tiene_rutina && palabras_editar.any fun palabra =>
          contiene palabra (a_minusculas mensaje)) = true
      · simp [h1, h2]
      · cases tiene_rutina
        · simp [h1, h2]
        · simp [h1, h2]
  refine ⟨h, ?_⟩
  rcases h with h | h | h <;> rw [h] <;> decide

/-- Claim C1: when the downstream generate / edit / persistence call fails,
`procesar_mensaje` leaves `rutina_actual`, `aprobada` and `n_ediciones`
exactly as they were and does not change the length of `historial`
(history is appended only on success). -/
theorem procesar_mensaje_fallo_preserva_estado
    (mensaje : String) (estado : Estado) (error_generar error_editar : String) :
    ((procesar_mensaje mensaje estado (.error error_generar) (.error error_editar) false).2.rutina_actual
        = estado.rutina_actual) ∧
    ((procesar_mensaje mensaje estado (.error error_generar) (.error error_editar) false).2.aprobada
        = estado.aprobada) ∧
    ((procesar_mensaje mensaje estado (.error error_generar) (.error error_editar) false).2.n_ediciones
        = estado.n_ediciones) ∧
    ((procesar_mensaje mensaje estado (.error error_generar) (.error error_editar) false).2.historial.length
        = estado.historial.length) := by
  have h : (procesar_mensaje mensaje estado (.error error_generar) (.error error_editar) false).2
      = estado := by
    simp only [procesar_mensaje]
    set i := detectar_intencion mensaje estado.rutina_actual.isSome with hi
    by_cases h1 : i = "generar"
    · simp [h1]
    · by_cases h2 : i = "editar"
      · cases hr : estado.rutina_actual with
        | none => simp [h1, h2]
        | some r => simp [h1, h2]
      · by_cases h3 : i = "aprobar"
        · cases hr : estado.rutina_actual with
          | none => simp [h1, h2, h3]
          | some r => cases hb : estado.aprobada <;> simp [h1, h2, h3, hb]
        · cases ht : estado.rutina_actual.isSome <;> simp [h1, h2, h3, ht]
  rw [h]
  exact ⟨rfl, rfl, rfl, rfl⟩

/-- Claim C4: starting from `crear_estado_inicial`, every application of
`procesar_mensaje` preserves the invariant that `aprobada = true` implies a
routine is present and `n_ediciones > 0` implies a routine is present. -/
theorem procesar_mensaje_preserva_invariante :
    (∀ proximo_lunes : String, invariante_sesion (crear_estado_inicial proximo_lunes)) ∧
    (∀ (mensaje : String) (estado : Estado)
        (resultado_generar resultado_editar : Except String (String × Semana))
        (resultado_guardar : Bool),
        invariante_sesion estado →
        invariante_sesion
          (procesar_mensaje mensaje estado resultado_generar resultado_editar resultado_guardar).2) := by
  constructor
  · intro proximo_lunes
    simp [invariante_sesion, crear_estado_inicial]
  · intro mensaje estado rg re p hinv
    simp only [procesar_mensaje]
    set i := detectar_intencion mensaje estado.rutina_actual.isSome with hi
    by_cases h1 : i = "generar"
    · cases rg with
      | error e => simpa [h1] using hinv
      | ok par =>
          obtain ⟨ra, rb⟩ := par
          simp [h1, invariante_sesion]
    · by_cases h2 : i = "editar"
      · cases hr : estado.rutina_actual with
        | none => simpa [h1, h2] using hinv
        | some r =>
            cases re with
            | error e => simpa [h1, h2] using hinv
            | ok par =>
                obtain ⟨ra, rb⟩ := par
                simp [h1, h2, invariante_sesion]
      · by_cases h3 : i = "aprobar"
        · cases hr : estado.rutina_actual with
          | none => simpa [h1, h2, h3] using hinv
          | some r =>
              cases hb : estado.aprobada
              · cases p
                · simpa [h1, h2, h3, hb] using hinv
                · simp [h1, h2, h3, hb, invariante_sesion]
              · simpa [h1, h2, h3, hb] using hinv
        · cases ht : estado.rutina_actual.isSome <;> simpa [h1, h2, h3, ht] using hinv

/-- Witness for C4: the invariant holds after a successful generation applied
to the freshly created session state. -/
theorem procesar_mensaje_preserva_invariante_testigo :
    invariante_sesion
      (procesar_mensaje "hola" (crear_estado_inicial "2025-01-06")
        (.ok ("acá está la semana", rutina_a)) (.error "") true).2 :=
  procesar_mensaje_preserva_invariante.2 "hola" (crear_estado_inicial "2025-01-06")
    (.ok ("acá está la semana", rutina_a)) (.error "") true
    (procesar_mensaje_preserva_invariante.1 "2025-01-06")

/-- Claim C2 counterexample: a successful edit step does NOT always preserve
`semana_id`.  With the routine `rutina_a` in the session and the model
returning the complete record `rutina_b` (a different `semana_id`), the edit
branch of `procesar_mensaje` stores `rutina_b` wholesale, so the stored
identifier changes. -/
theorem edicion_puede_cambiar_semana_id :
    ((procesar_mensaje "cambiá el wod del lunes" estado_c2
        (.error "") (.ok ("Listo, cambié el WOD.", rutina_b)) false).2.rutina_actual
      = some rutina_b) ∧
    estado_c2.rutina_actual = some rutina_a ∧
    rutina_b.semana_id ≠ rutina_a.semana_id := by decide

/-- Claim C2 (amended): a successful edit replaces `rutina_actual` wholesale
with the record the language-model collaborator returned, so the stored
`semana_id` equals the returned record's identifier — it is preserved exactly
when the model returns the same identifier. -/
theorem edicion_reemplaza_rutina_completa
    (mensaje : String) (estado : Estado)
    (resultado_generar : Except String (String × Semana))
    (respuesta_llm : String) (rutina_modificada : Semana) (resultado_guardar : Bool)
    (hintencion : detectar_intencion mensaje estado.rutina_actual.isSome = "editar")
    (htiene : estado.rutina_actual.isSome = true) :
    (procesar_mensaje mensaje estado resultado_generar
        (.ok (respuesta_llm, rutina_modificada)) resultado_guardar).2.rutina_actual
      = some rutina_modificada := by
  cases hr : estado.rutina_actual with
  | none => rw [hr] at htiene; simp at htiene
  | some r =>
      rw [hr] at hintencion
      simp only [Option.isSome_some] at hintencion
      simp only [procesar_mensaje, hr, Option.isSome_some]
      rw [hintencion]
      simp

/-- Witness for the amended C2: applying the edit-step theorem at the concrete
session of the counterexample. -/
theorem edicion_reemplaza_rutina_completa_testigo :
    (procesar_mensaje "cambiá el wod del lunes" estado_c2
        (.error "") (.ok ("Listo, cambié el WOD.", rutina_b)) false).2.rutina_actual
      = some rutina_b :=
  edicion_reemplaza_rutina_completa "cambiá el wod del lunes" estado_c2
    (.error "") "Listo, cambié el WOD." rutina_b false (by decide) (by decide)

/-- Claim C6: the similarity query clamps the requested candidate count to the
collection's document count — the number of results is always
`min n count`, and requesting 10 candidates against 2 documents returns
exactly 2 rather than failing. -/
theorem recuperar_rutinas_recorta_n :
    (∀ (coleccion : Coleccion) (query : String) (n_resultados : Nat),
        (recuperar_rutinas_similares coleccion query n_resultados none).length
          = min n_resultados coleccion.count) ∧
    (recuperar_rutinas_similares coleccion_dos "rutina de crossfit semanal" 10 none).length = 2 := by
  constructor
  · intro coleccion query n
    simp only [recuperar_rutinas_similares, List.length_map, List.length_take, Coleccion.count]
    omega
  · decide

/-- Claim C7: whenever the collection holds zero documents, `recuperar_contexto`
fails with the empty-collection error from `obtener_coleccion` — the query is
never issued against an empty collection. -/
theorem recuperar_contexto_falla_con_coleccion_vacia
    (cliente : Coleccion) (objetivo : Option String)
    (evitar_movimientos incluir_movimientos : Option (List String))
    (intensidad : Option String) (n_resultados : Nat)
    (h : cliente.count = 0) :
    recuperar_contexto cliente objetivo evitar_movimientos incluir_movimientos
        intensidad n_resultados
      = .error .coleccion_vacia := by
  unfold recuperar_contexto obtener_coleccion
  simp [h]

/-- Witness for C7: retrieval against the empty collection fails. -/
theorem recuperar_contexto_falla_testigo :
    recuperar_contexto coleccion_sin_documentos (some "fuerza en tren inferior")
        none none none 3
      = .error .coleccion_vacia :=
  recuperar_contexto_falla_con_coleccion_vacia coleccion_sin_documentos
    (some "fuerza en tren inferior") none none none 3 (by decide)

/-- Claim C8: `extraer_metadata_para_chroma` publishes the olympic movements
as the comma-space-joined, lexicographically sorted, deduplicated union of the
per-day lists; the output is invariant under redistributing the movements
across days, and the snatch/clean example gives `"clean, snatch"` for either
day order. -/
theorem extraer_metadata_olimpicos_ordenados :
    (∀ (semana : Semana) (meta : MetaChroma),
        extraer_metadata_para_chroma semana = some meta →
        meta.movimientos_olimpicos
          = String.intercalate ", " (ordenar_unicos (olimpicos_listados semana))) ∧
    (∀ (s₁ s₂ : Semana) (m₁ m₂ : MetaChroma),
        extraer_metadata_para_chroma s₁ = some m₁ →
        extraer_metadata_para_chroma s₂ = some m₂ →
        (olimpicos_listados s₁).Perm (olimpicos_listados s₂) →
        m₁.movimientos_olimpicos = m₂.movimientos_olimpicos) ∧
    (extraer_metadata_para_chroma semana_c8_a).map (fun m => m.movimientos_olimpicos)
      = some "clean, snatch" ∧
    (extraer_metadata_para_chroma semana_c8_b).map (fun m => m.movimientos_olimpicos)
      = some "clean, snatch" := by
  have caracterizacion : ∀ (semana : Semana) (meta : MetaChroma),
      extraer_metadata_para_chroma semana = some meta →
      meta.movimientos_olimpicos
        = String.intercalate ", " (ordenar_unicos (olimpicos_listados semana)) := by
    intro semana meta h
    unfold extraer_metadata_para_chroma at h
    cases hm : metadatos_de_dias semana.dias with
    | none => rw [hm] at h; exact absurd h (by simp)
    | some metas =>
        rw [hm] at h
        simp only [Option.some.injEq] at h
        subst h
        simp only [olimpicos_listados]
        rw [← metadatos_de_dias_olimpicos semana.dias metas hm]
  refine ⟨caracterizacion, ?_, by decide, by decide⟩
  intro s₁ s₂ m₁ m₂ h₁ h₂ hperm
  rw [caracterizacion s₁ m₁ h₁, caracterizacion s₂ m₂ h₂, ordenar_unicos_perm hperm]

/-- Witness for C8: the two concrete day orders of the snatch/clean example
produce the same joined olympic-movement field. -/
theorem extraer_metadata_olimpicos_testigo :
    meta_c8_a.movimientos_olimpicos = meta_c8_b.movimientos_olimpicos :=
  extraer_metadata_olimpicos_ordenados.2.1 semana_c8_a semana_c8_b meta_c8_a meta_c8_b
    (by decide) (by decide) (by decide)

/-- Claim C3 counterexample: the serializer does NOT omit every absent field.
For a day with no primary-block type tag, no muscle groups and no estimated
intensity, the output contains the placeholder `N/A` in the day header and in
the intensity line, and an empty-valued `Músculos:` label. -/
theorem json_a_texto_emite_marcador_en_ausencia :
    json_a_texto_enriquecido semana_c3
        = "Semana: semana_x | Inicio: 2025-01-06\n\nLUNES - N/A\nMúsculos: \nIntensidad: N/A" ∧
    contiene "N/A" (json_a_texto_enriquecido semana_c3) = true := by decide

set_option maxRecDepth 8000 in
/-- Claim C3 (amended): the serializer omits the lines of the absent optional
sub-blocks (core without exercises, beginner variant, exercise scale, olympic
list, strength pattern, accessories — illustrated by the concrete record
`semana_c3b`), but an absent primary-block type tag and an absent estimated
intensity are rendered with the placeholder `N/A`, and absent muscle groups
produce an empty-valued `Músculos:` label. -/
theorem json_a_texto_campos_ausentes :
    (∀ dia : Dia, dia.tipo_bloque_principal = none →
        (partes_dia dia).head? = some ("\n" ++ a_mayusculas dia.dia ++ " - N/A")) ∧
    (∀ (dia : Dia) (meta : MetadataDia), dia.metadata = some meta →
        meta.intensidad_estimada = none → "Intensidad: N/A" ∈ partes_dia dia) ∧
    (∀ (dia : Dia) (meta : MetadataDia), dia.metadata = some meta →
        meta.grupos_musculares = [] → "Músculos: " ∈ partes_dia dia) ∧
    json_a_texto_enriquecido semana_c3b
      = "Semana: semana_y | Inicio: 2025-01-06\n\nMARTES - FUERZA\nCore (3 rondas): Plancha 30s\nFUERZA: Back Squat 5x5\nWOD AMRAP 12':\n- Burpees 10\nMúsculos: piernas\nIntensidad: alta" := by
  refine ⟨?_, ?_, ?_, by decide⟩
  · intro dia h
    have hlit : (" - " : String) ++ "N/A" = " - N/A" := by decide
    simp only [partes_dia, h]
    rw [List.head?_cons, String.append_assoc, hlit]
  · intro dia meta hm hi
    simp only [partes_dia, hm]
    refine List.mem_cons_of_mem _ (List.mem_append_right _ ?_)
    refine List.mem_append_left _ (List.mem_append_right _ ?_)
    rw [hi, List.mem_singleton]
    decide
  · intro dia meta hm hg
    simp only [partes_dia, hm, hg]
    refine List.mem_cons_of_mem _ (List.mem_append_right _ ?_)
    refine List.mem_append_left _ (List.mem_append_left _ (List.mem_append_left _ ?_))
    rw [List.mem_singleton]
    decide

/-- Witness for the amended C3, at the concrete day `dia_c3`. -/
theorem json_a_texto_campos_ausentes_testigo :
    (partes_dia dia_c3).head? = some ("\n" ++ a_mayusculas dia_c3.dia ++ " - N/A") ∧
    "Intensidad: N/A" ∈ partes_dia dia_c3 :=
  ⟨json_a_texto_campos_ausentes.1 dia_c3 rfl,
   json_a_texto_campos_ausentes.2.1 dia_c3 meta_c3 rfl rfl⟩

/-- Claim C9: the escape repair of `parsear_respuesta_llm` doubles exactly the
backslashes not followed by a recognized JSON escape or `u` plus four hex
digits; the concrete raw text carrying a backslash-q inside a string value is
repaired into its doubled form, which the JSON acceptance model accepts while
rejecting the unrepaired text. -/
theorem limpiar_escapes_repara_invalidos :
    (∀ resto : List Char, escape_reconocido resto = false →
        limpiar_escapes ('\\' :: resto) = '\\' :: '\\' :: limpiar_escapes resto) ∧
    (∀ resto : List Char, escape_reconocido resto = true →
        limpiar_escapes ('\\' :: resto) = '\\' :: limpiar_escapes resto) ∧
    limpiar_escapes json_c9 = json_c9_reparado ∧
    json_valido json_c9_reparado = true ∧
    json_valido json_c9 = false := by
  refine ⟨?_, ?_, by decide, by decide, by decide⟩
  · intro resto h
    simp [limpiar_escapes, h]
  · intro resto h
    simp [limpiar_escapes, h]

/-- Witness for C9: the unrecognized escape backslash-q is doubled. -/
theorem limpiar_escapes_repara_testigo :
    escape_reconocido ['q'] = false ∧ limpiar_escapes ['\\', 'q'] = ['\\', '\\', 'q'] := by
  have h := limpiar_escapes_repara_invalidos.1 ['q'] (by decide)
  exact ⟨by decide, by rw [h]; decide⟩
